import Mathlib

/-!
Verification of the UDS protocol message model of `udsoncan/__init__.py`
(python-udsoncan): request/response framing, the response-code taxonomy,
the DidCodec factory and the Dtc status bitfield, shallowly embedded in Lean.
Payload bytes are modelled as natural numbers (each byte below 256 where it
matters) and Python exceptions as `Except String`.
-/

namespace Udsoncan

/-- Modelled from the spec: the Service Identity Registry (the `services` module
imported by `udsoncan/__init__.py`) is not part of the given sources.  Per the
spec, a service descriptor carries a numeric request id, a numeric response id,
a flag telling whether the service uses a subfunction byte
(`use_subfunction()`) and a flag telling whether its response carries payload
data (`has_response_data()`), plus a human-readable name. -/
structure Service where
  requestId : Nat
  responseId : Nat
  useSubfunction : Bool
  hasResponseData : Bool
  name : String
deriving DecidableEq

/-- Modelled from the spec: `services.cls_from_request_id`, lookup of a service
descriptor by its request id in an explicit registry (the spec demands request
ids be unique within the registry). -/
def clsFromRequestId (reg : List Service) (i : Nat) : Option Service :=
  reg.find? (fun s => s.requestId == i)

/-- Modelled from the spec: `services.cls_from_response_id`, lookup of a service
descriptor by its response id. -/
def clsFromResponseId (reg : List Service) (i : Nat) : Option Service :=
  reg.find? (fun s => s.responseId == i)

/-- Model of `struct.pack("B", x)`: one unsigned byte, raising `struct.error`
when the value does not fit. -/
def packB (x : Nat) : Except String (List Nat) :=
  if x ≤ 255 then .ok [x] else .error "struct.error: ubyte format requires 0 <= number <= 255"

/-- The `Request` object: service reference, optional subfunction byte,
suppress-positive-response flag and optional data bytes. -/
structure Request where
  service : Option Service
  subfunction : Option Nat
  suppressPositiveResponse : Bool
  data : Option (List Nat)
deriving DecidableEq

/-- `Request.get_payload` from the source: error when the service is not a
service class, error when the service uses a subfunction and none is a valid
integer; otherwise byte 0 is the request id, the optional subfunction byte gets
bit 7 ORed in when `suppress_positive_response` is set, and `data` is appended
verbatim when present. -/
def Request.get_payload (req : Request) : Except String (List Nat) :=
  match req.service with
  | none => .error "Cannot generate a payload. Given service is not a subclass of BaseService"
  | some svc =>
    match svc.useSubfunction, req.subfunction with
    | true, none => .error "Cannot generate a payload. Given subfunction is not a valid integer"
    | true, some sub =>
      (packB svc.requestId).bind fun head =>
        (packB (if req.suppressPositiveResponse then sub ||| 0x80 else sub)).map fun subByte =>
          head ++ subByte ++ req.data.getD []
    | false, _ =>
      (packB svc.requestId).map fun head => head ++ req.data.getD []

/-- `Request.from_payload` from the source: start from the blank request built
by `cls()`; when at least one byte is present, resolve the service from byte 0
(an unknown id leaves `service = None`); when the service uses a subfunction
and a second byte exists, its low 7 bits are the subfunction and bit 7 the
suppress flag; any bytes after the 1- or 2-byte header become `data`. -/
def Request.from_payload (reg : List Service) (payload : List Nat) : Request :=
  let req : Request :=
    { service := none, subfunction := none, suppressPositiveResponse := false, data := none }
  if payload.length ≥ 1 then
    match clsFromRequestId reg (payload.headD 0) with
    | none => req
    | some svc =>
      if svc.useSubfunction then
        let req1 : Request :=
          if payload.length ≥ 2 then
            { req with
              service := some svc
              subfunction := some (payload.getD 1 0 &&& 0x7F)
              suppressPositiveResponse := decide (payload.getD 1 0 &&& 0x80 > 0) }
          else { req with service := some svc }
        if payload.length > 2 then { req1 with data := some (payload.drop 2) } else req1
      else
        let req1 : Request := { req with service := some svc }
        if payload.length > 1 then { req1 with data := some (payload.drop 1) } else req1
  else req

/-- The `Response` object with the fields set by `Response.__init__`. -/
structure Response where
  service : Option Service
  positive : Bool
  code : Option Nat
  code_name : String
  data : Option (List Nat)
  valid : Bool
  invalid_reason : String
deriving DecidableEq

namespace Response.Code

/-- The named integer constants of `Response.Code`, transcribed from the
source in order of appearance (the ISO-15764 block is written with its 0x38
offset already applied). All values are pairwise distinct, so the iteration
order used by name lookup does not affect the result. -/
def members : List (String × Nat) := [
  ("PositiveResponse", 0x00),
  ("GeneralReject", 0x10),
  ("ServiceNotSupported", 0x11),
  ("SubFunctionNotSupported", 0x12),
  ("IncorrectMessageLegthOrInvalidFormat", 0x13),
  ("ResponseTooLong", 0x14),
  ("BusyRepeatRequest", 0x21),
  ("ConditionsNotCorrect", 0x22),
  ("RequestSequenceError", 0x24),
  ("NoResponseFromSubnetComponent", 0x25),
  ("FailurePreventsExecutionOfRequestedAction", 0x26),
  ("RequestOutOfRange", 0x31),
  ("SecurityAccessDenied", 0x33),
  ("InvalidKey", 0x35),
  ("ExceedNumberOfAttempts", 0x36),
  ("RequiredTimeDelayNotExpired", 0x37),
  ("UploadDownloadNotAccepted", 0x70),
  ("TransferDataSuspended", 0x71),
  ("GeneralProgrammingFailure", 0x72),
  ("WrongBlockSequenceCounter", 0x73),
  ("RequestCorrectlyReceived_ResponsePending", 0x78),
  ("SubFunctionNotSupportedInActiveSession", 0x7E),
  ("ServiceNotSupportedInActiveSession", 0x7F),
  ("RpmTooHigh", 0x81),
  ("RpmTooLow", 0x82),
  ("EngineIsRunning", 0x83),
  ("EngineIsNotRunning", 0x84),
  ("EngineRunTimeTooLow", 0x85),
  ("TemperatureTooHigh", 0x86),
  ("TemperatureTooLow", 0x87),
  ("VehicleSpeedTooHigh", 0x88),
  ("VehicleSpeedTooLow", 0x89),
  ("ThrottlePedalTooHigh", 0x8A),
  ("ThrottlePedalTooLow", 0x8B),
  ("TransmissionRangeNotInNeutral", 0x8C),
  ("TransmissionRangeNotInGear", 0x8D),
  ("ISOSAEReserved", 0x8E),
  ("BrakeSwitchNotClosed", 0x8F),
  ("ShifterLeverNotInPark", 0x90),
  ("TorqueConverterClutchLocked", 0x91),
  ("VoltageTooHigh", 0x92),
  ("VoltageTooLow", 0x93),
  ("GeneralSecurityViolation", 0x38),
  ("SecuredModeRequested", 0x39),
  ("InsufficientProtection", 0x3A),
  ("TerminationWithSignatureRequested", 0x3B),
  ("AccessDenied", 0x3C),
  ("VersionNotSupported", 0x3D),
  ("SecuredLinkNotSupported", 0x3E),
  ("CertificateNotAvailable", 0x3F),
  ("AuditTrailInformationNotAvailable", 0x40)]

/-- The `PositiveResponse` sentinel constant. -/
def PositiveResponse : Nat := 0x00

/-- `Response.Code.get_name`: the empty string for an absent code, the
matching constant name when one exists, else the decimal value as a string. -/
def get_name (given_id : Option Nat) : String :=
  match given_id with
  | none => ""
  | some v =>
    match members.find? (fun m => m.2 == v) with
    | some m => m.1
    | none => toString v

/-- `Response.Code.is_negative`: false for an absent code or the Positive
sentinel, true exactly when the value matches some registered constant. -/
def is_negative (given_id : Option Nat) : Bool :=
  match given_id with
  | none => false
  | some v =>
    if v == PositiveResponse then false
    else members.any (fun m => m.2 == v)

end Response.Code

/-- `Response.__init__` from the source: the service argument is modelled as
the already-resolved descriptor (the source accepts a class or an instance and
normalizes both to the descriptor; line 268 stores the argument itself).  Data
is rejected when the service declares no response data, a code above 0xFF is
rejected, `positive` is set exactly when `Code.is_negative` does not recognize
the code, and `valid` becomes true when both service and code are present. -/
def Response.init (service : Option Service) (code : Option Nat)
    (data : Option (List Nat)) : Except String Response :=
  let r0 : Response :=
    { service := service
      positive := false
      code := none
      code_name := ""
      data := data
      valid := false
      invalid_reason := "Object not initialized" }
  if data.isSome && (match service with
      | some svc => !svc.hasResponseData
      | none => false) then
    .error "This service should not have any data in its response."
  else
    match code with
    | none => .ok r0
    | some c =>
      if 0xFF < c then .error "Response code must be an integer between 0 and 0xFF"
      else
        let r1 : Response :=
          { r0 with
            code := some c
            code_name := Response.Code.get_name (some c)
            positive := !Response.Code.is_negative (some c) }
        .ok (if service.isSome then { r1 with valid := true, invalid_reason := "" } else r1)

/-- `Response.get_payload` from the source: error when service or code is
missing; byte 0 is the response id; a negative response inserts `0x7F` and the
code byte; finally `data` is appended whenever it is present and the service
declares response data (the source performs this append for positive and
negative responses alike). -/
def Response.get_payload (r : Response) : Except String (List Nat) :=
  match r.service with
  | none =>
    .error "Cannot make payload from response object. Given service is not a valid service object"
  | some svc =>
    match r.code with
    | none =>
      .error "Cannot make payload from response object. Given response code is not a valid integer"
    | some c =>
      (packB svc.responseId).bind fun head =>
        ((if r.positive then (Except.ok [] : Except String (List Nat))
          else (packB c).map fun cb => 0x7F :: cb).map fun mid =>
          head ++ mid ++ (if r.data.isSome && svc.hasResponseData then r.data.getD [] else []))

/-- `Response.from_payload` from the source: start from the blank response of
`cls()` (whose `invalid_reason` is "Object not initialized"); resolve the
service from byte 0; with a second byte different from `0x7F` the response is
positive with data starting at byte 1; with `0x7F` at byte 1 a third byte is
the negative code and data starts at byte 3, a missing third byte is invalid;
a 1-byte payload is a complete positive response only when the service takes
no response data; an empty payload is invalid. -/
def Response.from_payload (reg : List Service) (payload : List Nat) : Response :=
  let r0 : Response :=
    { service := none
      positive := false
      code := none
      code_name := ""
      data := none
      valid := false
      invalid_reason := "Object not initialized" }
  if payload.length ≥ 1 then
    match clsFromResponseId reg (payload.headD 0) with
    | none =>
      { r0 with valid := false, invalid_reason := "Payload first byte is not a know service." }
    | some svc =>
      if payload.length ≥ 2 then
        if payload.getD 1 0 ≠ 0x7F then
          let r1 : Response :=
            { r0 with
              service := some svc
              valid := true
              code := some Response.Code.PositiveResponse
              code_name := Response.Code.get_name (some Response.Code.PositiveResponse)
              positive := true }
          if payload.length > 1 then { r1 with data := some (payload.drop 1) } else r1
        else
          if payload.length ≥ 3 then
            let r1 : Response :=
              { r0 with
                service := some svc
                positive := false
                code := some (payload.getD 2 0)
                code_name := Response.Code.get_name (some (payload.getD 2 0))
                valid := true }
            if payload.length > 3 then { r1 with data := some (payload.drop 3) } else r1
          else
            { r0 with
              service := some svc
              positive := false
              valid := false
              invalid_reason := "Incomplete invalid response code (7Fxx)" }
      else
        if svc.hasResponseData then
          { r0 with
            service := some svc
            valid := false
            invalid_reason := "Payload must be at least 2 bytes long (service and response)" }
        else
          { r0 with
            service := some svc
            valid := true
            code := some Response.Code.PositiveResponse
            code_name := Response.Code.get_name (some Response.Code.PositiveResponse)
            positive := true }
  else
    { r0 with
      valid := false
      invalid_reason := "Payload must be at least 2 bytes long (service and response)" }

/-- A `DidCodec` object: its only state is the optional pack-format string. -/
structure DidCodec where
  packstr : Option String
deriving DecidableEq

/-- The shapes a DID configuration value can take when handed to
`DidCodec.from_config`: an existing codec instance, a codec subtype (a class,
whose no-argument instantiation is modelled by a function out of `Unit`), a
compact pack-format string, or any other Python value. -/
inductive DidConfig where
  | inst (c : DidCodec)
  | subcls (mk : Unit → DidCodec)
  | strFmt (s : String)
  | other

/-- `DidCodec.from_config` from the source: an instance is returned unchanged,
a subtype is instantiated with no arguments, a string becomes the pack-format
of a fresh codec, and any other shape falls off the end of the function, which
in Python is a normal return of `None` (modelled as `.ok none`); no exception
is raised on any path. -/
def DidCodec.from_config (didconfig : DidConfig) : Except String (Option DidCodec) :=
  match didconfig with
  | .inst c => .ok (some c)
  | .subcls instantiate => .ok (some (instantiate ()))
  | .strFmt s => .ok (some { packstr := some s })
  | .other => .ok none

/-- The eight status booleans of a `Dtc` object. -/
structure Dtc where
  testFailed : Bool
  testFailedThisOperationCycle : Bool
  pending : Bool
  confirmed : Bool
  testNotCompletedSinceLastClear : Bool
  testFailedSinceLastClear : Bool
  testNotCompletedThisOperationCycle : Bool
  warningIndicatorRequested : Bool
deriving DecidableEq

/-- The value accumulated in the local variable `byte` by the body of the
`Dtc.status` getter: the eight flags ORed into their fixed bit positions. -/
def Dtc.statusLocalByte (d : Dtc) : Nat :=
  ((((((((0 ||| (if d.testFailed then 0x1 else 0)) |||
    (if d.testFailedThisOperationCycle then 0x2 else 0)) |||
    (if d.pending then 0x4 else 0)) |||
    (if d.confirmed then 0x8 else 0)) |||
    (if d.testNotCompletedSinceLastClear then 0x10 else 0)) |||
    (if d.testFailedSinceLastClear then 0x20 else 0)) |||
    (if d.testNotCompletedThisOperationCycle then 0x40 else 0)) |||
    (if d.warningIndicatorRequested then 0x80 else 0))

/-- The `Dtc.status` property getter as written in the source: the body
computes the packed byte into a local variable but contains no return
statement, so the Python property evaluates to `None` on every object. -/
def Dtc.statusGet (d : Dtc) : Option Nat :=
  let _byte := d.statusLocalByte
  none

/-- The `Dtc.status` property setter: every one of the eight flags is
overwritten from its fixed bit mask of the input byte. -/
def Dtc.statusSet (byte : Nat) : Dtc :=
  { testFailed := decide (byte &&& 0x01 > 0)
    testFailedThisOperationCycle := decide (byte &&& 0x02 > 0)
    pending := decide (byte &&& 0x04 > 0)
    confirmed := decide (byte &&& 0x08 > 0)
    testNotCompletedSinceLastClear := decide (byte &&& 0x10 > 0)
    testFailedSinceLastClear := decide (byte &&& 0x20 > 0)
    testNotCompletedThisOperationCycle := decide (byte &&& 0x40 > 0)
    warningIndicatorRequested := decide (byte &&& 0x80 > 0) }

/-- `Dtc.updateStatus` exactly as declared in the source: the parameter list
has no `self` and no `testNotCompletedThisOperationCycle` parameter (only the
seven below), yet the body assigns through `self` whenever an argument is
provided and tests the name `testNotCompletedThisOperationCycle` after the six
blocks for the parameters that precede it.  Both names are unbound inside the
function, so every execution raises a `NameError` before reaching the
`warningIndicatorRequested` block; the checks are modelled in source order. -/
def Dtc.updateStatus (testFailed testFailedThisOperationCycle pending confirmed
    testNotCompletedSinceLastClear testFailedSinceLastClear
    warningIndicatorRequested : Option Bool) : Except String Dtc :=
  if testFailed.isSome then .error "NameError: name self is not defined"
  else if testFailedThisOperationCycle.isSome then .error "NameError: name self is not defined"
  else if pending.isSome then .error "NameError: name self is not defined"
  else if confirmed.isSome then .error "NameError: name self is not defined"
  else if testNotCompletedSinceLastClear.isSome then .error "NameError: name self is not defined"
  else if testFailedSinceLastClear.isSome then .error "NameError: name self is not defined"
  else
    let _unused := warningIndicatorRequested
    .error "NameError: name testNotCompletedThisOperationCycle is not defined"

/-- Modelled from the spec: a concrete ReadDataByIdentifier-style descriptor,
request id 0x22, response id 0x62 (request id plus 0x40), no subfunction,
response carries data. -/
def svcRD : Service :=
  { requestId := 0x22
    responseId := 0x62
    useSubfunction := false
    hasResponseData := true
    name := "ReadDataByIdentifier" }

/-- Modelled from the spec: a registry in which request service id 0x22 maps
to response id 0x62. -/
def regRD : List Service := [svcRD]

/-- Modelled from the spec: a concrete DiagnosticSessionControl-style
descriptor, request id 0x10, uses a subfunction, response carries no data. -/
def svcDS : Service :=
  { requestId := 0x10
    responseId := 0x50
    useSubfunction := true
    hasResponseData := false
    name := "DiagnosticSessionControl" }

/-- Registry holding the subfunction-using service. -/
def regDS : List Service := [svcDS]


/-- A well-formed positive response carrying data that begins with the 0x7F
marker byte: the value produced by `Response.init svcRD 0 [0x7F, 0x31]`. -/
def rPosData : Response :=
  { service := some svcRD
    positive := true
    code := some 0x00
    code_name := "PositiveResponse"
    data := some [0x7F, 0x31]
    valid := true
    invalid_reason := "" }

/-- A well-formed negative response (code RequestOutOfRange) carrying data,
as produced by `Response.init svcRD 0x31 [0xAA]`. -/
def rNegData : Response :=
  { service := some svcRD
    positive := false
    code := some 0x31
    code_name := "RequestOutOfRange"
    data := some [0xAA]
    valid := true
    invalid_reason := "" }

/-- A well-formed negative response without data. -/
def rNegNoData : Response :=
  { service := some svcRD
    positive := false
    code := some 0x31
    code_name := "RequestOutOfRange"
    data := none
    valid := true
    invalid_reason := "" }

/-- A well-formed request whose subfunction byte 0x80 has bit 7 set and whose
suppress flag is off. -/
def reqSub80 : Request :=
  { service := some svcDS
    subfunction := some 0x80
    suppressPositiveResponse := false
    data := none }

/-- A well-formed request with subfunction 0x03 and the suppress flag on. -/
def reqSess : Request :=
  { service := some svcDS
    subfunction := some 0x03
    suppressPositiveResponse := true
    data := none }

/-- Facts about the subfunction byte arithmetic used by the request framer:
for a subfunction below 0x80, masking with 0x7F undoes ORing with 0x80, the
0x80 bit faithfully records the suppress flag, and the byte stays below 256. -/
theorem subfunction_byte_facts : ∀ s, s < 128 →
    ((s ||| 128) &&& 127 = s ∧ s &&& 127 = s ∧
     decide ((s ||| 128) &&& 128 > 0) = true ∧ decide (s &&& 128 > 0) = false ∧
     s ||| 128 ≤ 255) := by decide

/-- Evaluation of `Request.from_payload` on a two-or-more-byte payload whose
first byte resolves to a subfunction-using service. -/
theorem Request.from_payload_subfunction (reg : List Service) (a b : Nat) (tail : List Nat)
    (svc : Service) (hlookup : clsFromRequestId reg a = some svc)
    (hb : svc.useSubfunction = true) :
    Request.from_payload reg (a :: b :: tail) =
      { service := some svc
        subfunction := some (b &&& 0x7F)
        suppressPositiveResponse := decide (b &&& 0x80 > 0)
        data := if tail = [] then none else some tail } := by
  simp only [Request.from_payload, List.headD_cons]
  rw [if_pos (by simp only [List.length_cons, List.length_nil]; omega :
    (a :: b :: tail).length ≥ 1), hlookup]
  simp only [hb, if_true]
  rw [if_pos (by simp only [List.length_cons, List.length_nil]; omega :
    (a :: b :: tail).length ≥ 2)]
  by_cases ht : tail = []
  · subst ht
    rw [if_neg (by simp only [List.length_cons, List.length_nil]; omega :
      ¬ ((a :: b :: ([] : List Nat)).length > 2))]
    simp
  · have hlen : tail.length > 0 := List.length_pos.mpr ht
    rw [if_pos (by simp only [List.length_cons, List.length_nil]; omega :
      (a :: b :: tail).length > 2)]
    simp [ht]

/-- Evaluation of `Request.from_payload` on a payload whose first byte
resolves to a service without subfunction. -/
theorem Request.from_payload_plain (reg : List Service) (a : Nat) (tail : List Nat)
    (svc : Service) (hlookup : clsFromRequestId reg a = some svc)
    (hb : svc.useSubfunction = false) :
    Request.from_payload reg (a :: tail) =
      { service := some svc
        subfunction := none
        suppressPositiveResponse := false
        data := if tail = [] then none else some tail } := by
  simp only [Request.from_payload, List.headD_cons, hlookup]
  rw [if_pos (by simp only [List.length_cons, List.length_nil]; omega : (a :: tail).length ≥ 1)]
  simp only [hb, if_false, Bool.false_eq_true]
  by_cases ht : tail = []
  · subst ht
    rw [if_neg (by simp only [List.length_cons, List.length_nil]; omega :
      ¬ ((a :: ([] : List Nat)).length > 1))]
    simp
  · have hlen : tail.length > 0 := List.length_pos.mpr ht
    rw [if_pos (by simp only [List.length_cons, List.length_nil]; omega : (a :: tail).length > 1)]
    simp [ht]

/-- Evaluation of `Response.from_payload` on a payload of two or more bytes
whose second byte is not the 0x7F marker: a positive response whose data
starts right after the response id. -/
theorem Response.from_payload_positive (reg : List Service) (a b : Nat) (tail : List Nat)
    (svc : Service) (hlookup : clsFromResponseId reg a = some svc) (hb : b ≠ 0x7F) :
    Response.from_payload reg (a :: b :: tail) =
      { service := some svc
        positive := true
        code := some Response.Code.PositiveResponse
        code_name := Response.Code.get_name (some Response.Code.PositiveResponse)
        data := some (b :: tail)
        valid := true
        invalid_reason := "Object not initialized" } := by
  simp only [Response.from_payload, List.headD_cons, hlookup]
  rw [if_pos (by simp only [List.length_cons, List.length_nil]; omega :
    (a :: b :: tail).length ≥ 1)]
  rw [if_pos (by simp only [List.length_cons, List.length_nil]; omega :
    (a :: b :: tail).length ≥ 2)]
  rw [if_pos (by exact hb : (a :: b :: tail).getD 1 0 ≠ 0x7F)]
  rw [if_pos (by simp only [List.length_cons, List.length_nil]; omega :
    (a :: b :: tail).length > 1)]
  rfl

/-- Evaluation of `Response.from_payload` on a negative frame: response id,
the 0x7F marker, the code byte, and optional trailing data. -/
theorem Response.from_payload_negative (reg : List Service) (a c : Nat) (tail : List Nat)
    (svc : Service) (hlookup : clsFromResponseId reg a = some svc) :
    Response.from_payload reg (a :: 0x7F :: c :: tail) =
      { service := some svc
        positive := false
        code := some c
        code_name := Response.Code.get_name (some c)
        data := if tail = [] then none else some tail
        valid := true
        invalid_reason := "Object not initialized" } := by
  simp only [Response.from_payload, List.headD_cons, hlookup]
  rw [if_pos (by simp only [List.length_cons, List.length_nil]; omega :
    (a :: 0x7F :: c :: tail).length ≥ 1)]
  rw [if_pos (by simp only [List.length_cons, List.length_nil]; omega :
    (a :: 0x7F :: c :: tail).length ≥ 2)]
  rw [if_neg (by exact fun h => h rfl : ¬ ((a :: 0x7F :: c :: tail).getD 1 0 ≠ 0x7F))]
  rw [if_pos (by simp only [List.length_cons, List.length_nil]; omega :
    (a :: 0x7F :: c :: tail).length ≥ 3)]
  by_cases ht : tail = []
  · subst ht
    rw [if_neg (by simp only [List.length_cons, List.length_nil]; omega :
      ¬ ((a :: 0x7F :: c :: ([] : List Nat)).length > 3))]
    simp
  · have hlen : tail.length > 0 := List.length_pos.mpr ht
    rw [if_pos (by simp only [List.length_cons, List.length_nil]; omega :
      (a :: 0x7F :: c :: tail).length > 3)]
    simp [ht]

/-- Evaluation of `Response.from_payload` on a single-byte payload resolving
to a service without response data: a complete positive response. -/
theorem Response.from_payload_single (reg : List Service) (a : Nat)
    (svc : Service) (hlookup : clsFromResponseId reg a = some svc)
    (hnd : svc.hasResponseData = false) :
    Response.from_payload reg [a] =
      { service := some svc
        positive := true
        code := some Response.Code.PositiveResponse
        code_name := Response.Code.get_name (some Response.Code.PositiveResponse)
        data := none
        valid := true
        invalid_reason := "Object not initialized" } := by
  simp only [Response.from_payload, List.headD_cons, hlookup]
  rw [if_pos (by simp only [List.length_cons, List.length_nil]; omega :
    ([a] : List Nat).length ≥ 1)]
  rw [if_neg (by simp only [List.length_cons, List.length_nil]; omega :
    ¬ (([a] : List Nat).length ≥ 2))]
  simp only [hnd, if_false, Bool.false_eq_true]

/-- Evaluation of `Response.get_payload` on a negative response: the response
id, the 0x7F marker, the code byte, then the data whenever data is present and
the service declares response data. -/
theorem Response.get_payload_of_negative (r : Response) (svc : Service) (c : Nat)
    (hsvc : r.service = some svc) (hrid : svc.responseId ≤ 255)
    (hcode : r.code = some c) (hc : c ≤ 255) (hneg : r.positive = false) :
    Response.get_payload r = Except.ok (svc.responseId :: 0x7F :: c ::
      (if r.data.isSome && svc.hasResponseData then r.data.getD [] else [])) := by
  simp only [Response.get_payload, hsvc, hcode, hneg, packB, hrid, hc, if_true, if_false,
    Bool.false_eq_true, Except.map, Except.bind]
  rfl

/-- Evaluation of `Response.get_payload` on a positive response: the response
id, then the data whenever present and declared. -/
theorem Response.get_payload_of_positive (r : Response) (svc : Service) (c : Nat)
    (hsvc : r.service = some svc) (hrid : svc.responseId ≤ 255)
    (hcode : r.code = some c) (hpos : r.positive = true) :
    Response.get_payload r = Except.ok (svc.responseId ::
      (if r.data.isSome && svc.hasResponseData then r.data.getD [] else [])) := by
  simp only [Response.get_payload, hsvc, hcode, hpos, packB, hrid, if_true, Except.map,
    Except.bind]
  rfl


/-- Claim C1: `Response.from_payload` is a total function (the model returns a
`Response` for every byte sequence, mirroring the absence of any raising path
in the source), and on every malformed input of the claim (empty payload,
unknown service id at byte 0, one-byte payload for a service that declares
response data, or a 0x7F marker at byte 1 with no third byte) the result has
`valid = false` and a non-empty `invalid_reason`. -/
theorem C1_from_payload_malformed_invalid (reg : List Service) (payload : List Nat)
    (hmal :
      payload.length = 0 ∨
      (payload.length ≥ 1 ∧ clsFromResponseId reg (payload.headD 0) = none) ∨
      (∃ svc, payload.length = 1 ∧ clsFromResponseId reg (payload.headD 0) = some svc ∧
        svc.hasResponseData = true) ∨
      (payload.length = 2 ∧ payload.getD 1 0 = 0x7F ∧
        (clsFromResponseId reg (payload.headD 0)).isSome = true)) :
    (Response.from_payload reg payload).valid = false ∧
    (Response.from_payload reg payload).invalid_reason ≠ "" := by
  rcases hmal with h0 | ⟨h1, hnone⟩ | ⟨svc, h1, hsome, hdata⟩ | ⟨h2, h7f, hsome⟩
  · simp only [Response.from_payload]
    rw [if_neg (by omega : ¬ payload.length ≥ 1)]
    exact ⟨rfl, by decide⟩
  · simp only [Response.from_payload, hnone]
    rw [if_pos h1]
    exact ⟨rfl, by decide⟩
  · simp only [Response.from_payload, hsome]
    rw [if_pos (by omega : payload.length ≥ 1)]
    rw [if_neg (by omega : ¬ payload.length ≥ 2)]
    rw [if_pos hdata]
    exact ⟨rfl, show "Payload must be at least 2 bytes long (service and response)" ≠ "" by decide⟩
  · obtain ⟨svc, hsvc⟩ := Option.isSome_iff_exists.mp hsome
    simp only [Response.from_payload, hsvc]
    rw [if_pos (by omega : payload.length ≥ 1)]
    rw [if_pos (by omega : payload.length ≥ 2)]
    rw [if_neg (fun h => h h7f : ¬ (payload.getD 1 0 ≠ 0x7F))]
    rw [if_neg (by omega : ¬ payload.length ≥ 3)]
    exact ⟨rfl, show "Incomplete invalid response code (7Fxx)" ≠ "" by decide⟩

/-- Claim C1, witness: the one-byte payload 0x99 in the empty registry has an
unknown service id and parses to an invalid response with a reason. -/
theorem C1_from_payload_malformed_invalid_witness :
    (Response.from_payload ([] : List Service) [0x99]).valid = false ∧
    (Response.from_payload ([] : List Service) [0x99]).invalid_reason ≠ "" :=
  C1_from_payload_malformed_invalid [] [0x99] (Or.inr (Or.inl ⟨by decide, rfl⟩))

/-- Claim C2, counterexample: the response built by the constructor for the
resolvable service `svcRD`, valid code 0x00 and permitted data 7F 31 is
positive, yet parsing its own payload 62 7F 31 yields a negative response
with code 0x31 and no data, so the round trip does not preserve the positive
flag, the code, or the data. -/
theorem C2_response_roundtrip_counterexample :
    Response.init (some svcRD) (some 0x00) (some [0x7F, 0x31]) = Except.ok rPosData ∧
    clsFromResponseId regRD svcRD.responseId = some svcRD ∧
    rPosData.positive = true ∧
    Response.get_payload rPosData = Except.ok [0x62, 0x7F, 0x31] ∧
    (Response.from_payload regRD [0x62, 0x7F, 0x31]).positive = false ∧
    (Response.from_payload regRD [0x62, 0x7F, 0x31]).code = some 0x31 ∧
    (Response.from_payload regRD [0x62, 0x7F, 0x31]).data = none :=
  ⟨rfl, rfl, rfl, rfl, rfl, rfl, rfl⟩

/-- Claim C2 as amended: the round trip reproduces service, positive flag,
code and data for every well-formed response whose data, when present, is a
non-empty byte string permitted by the service, provided a positive response
has the code PositiveResponse (0) and either carries no data with a service
declaring no response data, or carries data that does not begin with the 0x7F
marker byte. -/
theorem C2_response_roundtrip (reg : List Service) (r : Response) (svc : Service) (c : Nat)
    (hsvc : r.service = some svc)
    (hlookup : clsFromResponseId reg svc.responseId = some svc)
    (hrid : svc.responseId ≤ 255)
    (hcode : r.code = some c) (hc : c ≤ 255)
    (hdata : r.data = none ∨ (svc.hasResponseData = true ∧ ∃ d, r.data = some d ∧ d ≠ []))
    (hpos : r.positive = true →
      c = 0 ∧ ((r.data = none ∧ svc.hasResponseData = false) ∨
        (∃ d, r.data = some d ∧ d ≠ [] ∧ d.headD 0 ≠ 0x7F))) :
    ∃ p, Response.get_payload r = Except.ok p ∧
      (Response.from_payload reg p).service = r.service ∧
      (Response.from_payload reg p).positive = r.positive ∧
      (Response.from_payload reg p).code = r.code ∧
      (Response.from_payload reg p).data = r.data := by
  cases hposv : r.positive with
  | false =>
    have hgp := Response.get_payload_of_negative r svc c hsvc hrid hcode hc hposv
    rcases hdata with hnone | ⟨hrd, d, hd, hdne⟩
    · rw [hnone] at hgp
      simp only [Option.isSome_none, Bool.false_and, if_false, Bool.false_eq_true,
        Option.getD_none] at hgp
      have hfp := Response.from_payload_negative reg svc.responseId c [] svc hlookup
      rw [if_pos rfl] at hfp
      refine ⟨_, hgp, ?_, ?_, ?_, ?_⟩ <;> rw [hfp]
      · exact hsvc.symm
      · exact hcode.symm
      · exact hnone.symm
    · rw [hd, hrd] at hgp
      simp only [Option.isSome_some, Bool.and_self, if_true, Option.getD_some] at hgp
      have hfp := Response.from_payload_negative reg svc.responseId c d svc hlookup
      rw [if_neg hdne] at hfp
      refine ⟨_, hgp, ?_, ?_, ?_, ?_⟩ <;> rw [hfp]
      · exact hsvc.symm
      · exact hcode.symm
      · exact hd.symm
  | true =>
    obtain ⟨hc0, hrest⟩ := hpos hposv
    subst hc0
    have hgp := Response.get_payload_of_positive r svc 0 hsvc hrid hcode hposv
    rcases hrest with ⟨hnone, hnrd⟩ | ⟨d, hd, hdne, hdhead⟩
    · rw [hnone] at hgp
      simp only [Option.isSome_none, Bool.false_and, if_false, Bool.false_eq_true,
        Option.getD_none] at hgp
      have hfp := Response.from_payload_single reg svc.responseId svc hlookup hnrd
      refine ⟨_, hgp, ?_, ?_, ?_, ?_⟩ <;> rw [hfp]
      · exact hsvc.symm
      · rw [hcode]
        rfl
      · exact hnone.symm
    · have hrd : svc.hasResponseData = true := by
        rcases hdata with hn | ⟨hrd, _⟩
        · rw [hn] at hd
          exact absurd hd (by simp)
        · exact hrd
      rw [hd, hrd] at hgp
      simp only [Option.isSome_some, Bool.and_self, if_true, Option.getD_some] at hgp
      obtain ⟨dh, dt, rfl⟩ : ∃ x xs, d = x :: xs := by
        cases d with
        | nil => exact absurd rfl hdne
        | cons x xs => exact ⟨x, xs, rfl⟩
      have hfp := Response.from_payload_positive reg svc.responseId dh dt svc hlookup
        (by exact hdhead)
      refine ⟨_, hgp, ?_, ?_, ?_, ?_⟩ <;> rw [hfp]
      · exact hsvc.symm
      · rw [hcode]
        rfl
      · exact hd.symm

/-- Claim C2, witness: the round trip at the concrete negative response with
data 0xAA through the concrete registry. -/
theorem C2_response_roundtrip_witness :
    ∃ p, Response.get_payload rNegData = Except.ok p ∧
      (Response.from_payload regRD p).service = rNegData.service ∧
      (Response.from_payload regRD p).positive = rNegData.positive ∧
      (Response.from_payload regRD p).code = rNegData.code ∧
      (Response.from_payload regRD p).data = rNegData.data :=
  C2_response_roundtrip regRD rNegData svcRD 0x31 rfl rfl (by decide) rfl (by decide)
    (Or.inr ⟨rfl, [0xAA], rfl, by decide⟩)
    (fun h => absurd h (by decide))

/-- Claim C3, counterexample: the well-formed request for the registered
service `svcDS` with the valid subfunction byte 0x80 and the suppress flag off
serializes to 10 80, but parsing that payload returns subfunction 0x00 and the
suppress flag on, so the round trip preserves neither field. -/
theorem C3_request_roundtrip_counterexample :
    clsFromRequestId regDS svcDS.requestId = some svcDS ∧
    Request.get_payload reqSub80 = Except.ok [0x10, 0x80] ∧
    reqSub80.subfunction = some 0x80 ∧
    reqSub80.suppressPositiveResponse = false ∧
    (Request.from_payload regDS [0x10, 0x80]).subfunction = some 0x00 ∧
    (Request.from_payload regDS [0x10, 0x80]).suppressPositiveResponse = true :=
  ⟨rfl, rfl, rfl, rfl, rfl, rfl⟩

/-- Claim C3 as amended: the round trip reproduces service, subfunction,
suppress flag and data for every well-formed request whose subfunction, when
the service uses one, is below 0x80 (so that the suppress bit is recoverable),
whose subfunction is absent and suppress flag off when the service uses none,
and whose data, when present, is non-empty. -/
theorem C3_request_roundtrip (reg : List Service) (r : Request) (svc : Service)
    (hsvc : r.service = some svc)
    (hlookup : clsFromRequestId reg svc.requestId = some svc)
    (hrid : svc.requestId ≤ 255)
    (hsub : svc.useSubfunction = true → ∃ s, r.subfunction = some s ∧ s < 0x80)
    (hnosub : svc.useSubfunction = false →
      r.subfunction = none ∧ r.suppressPositiveResponse = false)
    (hdata : r.data = none ∨ ∃ d, r.data = some d ∧ d ≠ []) :
    ∃ p, Request.get_payload r = Except.ok p ∧
      (Request.from_payload reg p).service = r.service ∧
      (Request.from_payload reg p).subfunction = r.subfunction ∧
      (Request.from_payload reg p).suppressPositiveResponse = r.suppressPositiveResponse ∧
      (Request.from_payload reg p).data = r.data := by
  have hdl : (if r.data.getD [] = [] then none else some (r.data.getD [])) = r.data := by
    rcases hdata with hnone | ⟨d, hd, hdne⟩
    · simp [hnone]
    · simp [hd, hdne]
  cases husub : svc.useSubfunction with
  | true =>
    obtain ⟨s, hs, hs128⟩ := hsub husub
    have hfacts := subfunction_byte_facts s hs128
    cases hsupp : r.suppressPositiveResponse with
    | false =>
      have hgp : Request.get_payload r =
          Except.ok (svc.requestId :: s :: r.data.getD []) := by
        simp only [Request.get_payload, hsvc, husub, hs, hsupp, packB, hrid, if_true, if_false,
          Bool.false_eq_true, Except.bind, Except.map]
        rw [if_pos (by omega : s ≤ 255)]
        rfl
      have hfp := Request.from_payload_subfunction reg svc.requestId s (r.data.getD [])
        svc hlookup husub
      refine ⟨_, hgp, ?_, ?_, ?_, ?_⟩ <;> rw [hfp]
      · exact hsvc.symm
      · rw [hfacts.2.1]
        exact hs.symm
      · exact hfacts.2.2.2.1
      · exact hdl
    | true =>
      have hgp : Request.get_payload r =
          Except.ok (svc.requestId :: (s ||| 0x80) :: r.data.getD []) := by
        simp only [Request.get_payload, hsvc, husub, hs, hsupp, packB, hrid, if_true,
          Except.bind, Except.map]
        rw [if_pos hfacts.2.2.2.2]
        rfl
      have hfp := Request.from_payload_subfunction reg svc.requestId (s ||| 0x80)
        (r.data.getD []) svc hlookup husub
      refine ⟨_, hgp, ?_, ?_, ?_, ?_⟩ <;> rw [hfp]
      · exact hsvc.symm
      · rw [hfacts.1]
        exact hs.symm
      · exact hfacts.2.2.1
      · exact hdl
  | false =>
    obtain ⟨hsubnone, hsuppf⟩ := hnosub husub
    have hgp : Request.get_payload r =
        Except.ok (svc.requestId :: r.data.getD []) := by
      simp only [Request.get_payload, hsvc, husub, packB, hrid, if_true, Except.map]
      rfl
    have hfp := Request.from_payload_plain reg svc.requestId (r.data.getD [])
      svc hlookup husub
    refine ⟨_, hgp, ?_, ?_, ?_, ?_⟩ <;> rw [hfp]
    · exact hsvc.symm
    · exact hsubnone.symm
    · exact hsuppf.symm
    · exact hdl

/-- Claim C3, witness: the round trip at the concrete request with
subfunction 0x03 and the suppress flag on. -/
theorem C3_request_roundtrip_witness :
    ∃ p, Request.get_payload reqSess = Except.ok p ∧
      (Request.from_payload regDS p).service = reqSess.service ∧
      (Request.from_payload regDS p).subfunction = reqSess.subfunction ∧
      (Request.from_payload regDS p).suppressPositiveResponse =
        reqSess.suppressPositiveResponse ∧
      (Request.from_payload regDS p).data = reqSess.data :=
  C3_request_roundtrip regDS reqSess svcDS rfl rfl (by decide)
    (fun _ => ⟨0x03, rfl, by decide⟩)
    (fun h => absurd h (by decide))
    (Or.inl rfl)

/-- Claim C4, counterexample: the negative response built by the constructor
for `svcRD` (which declares response data) with code 0x31 and data 0xAA
serializes to 62 7F 31 AA: the data byte is appended after the code byte, so
the payload is not the three bytes the claim promises. -/
theorem C4_negative_payload_counterexample :
    Response.init (some svcRD) (some 0x31) (some [0xAA]) = Except.ok rNegData ∧
    rNegData.positive = false ∧
    Response.get_payload rNegData = Except.ok [0x62, 0x7F, 0x31, 0xAA] ∧
    ([0x62, 0x7F, 0x31, 0xAA] : List Nat) ≠ [0x62, 0x7F, 0x31] :=
  ⟨rfl, rfl, rfl, by decide⟩

/-- Claim C4 as amended: for every negative response with a resolvable service
and a valid code byte, the payload is the response id, the 0x7F marker and the
code byte, followed by the data exactly when the response carries data and the
service declares response data; in particular it is exactly the three header
bytes whenever the data is absent or the service declares no response data. -/
theorem C4_negative_payload (r : Response) (svc : Service) (c : Nat)
    (hsvc : r.service = some svc) (hrid : svc.responseId ≤ 255)
    (hcode : r.code = some c) (hc : c ≤ 255) (hneg : r.positive = false) :
    Response.get_payload r = Except.ok (svc.responseId :: 0x7F :: c ::
      (if r.data.isSome && svc.hasResponseData then r.data.getD [] else [])) ∧
    (r.data = none ∨ svc.hasResponseData = false →
      Response.get_payload r = Except.ok [svc.responseId, 0x7F, c]) := by
  have hmain := Response.get_payload_of_negative r svc c hsvc hrid hcode hc hneg
  refine ⟨hmain, ?_⟩
  rintro (hnone | hnrd)
  · rw [hmain, hnone]
    rfl
  · rw [hmain, hnrd]
    simp

/-- Claim C4, witness: the amended payload shape at the concrete negative
response without data, whose payload is exactly the three header bytes. -/
theorem C4_negative_payload_witness :
    Response.get_payload rNegNoData = Except.ok (svcRD.responseId :: 0x7F :: 0x31 ::
      (if rNegNoData.data.isSome && svcRD.hasResponseData then
        rNegNoData.data.getD [] else [])) ∧
    (rNegNoData.data = none ∨ svcRD.hasResponseData = false →
      Response.get_payload rNegNoData = Except.ok [svcRD.responseId, 0x7F, 0x31]) :=
  C4_negative_payload rNegNoData svcRD 0x31 rfl (by decide) rfl (by decide) rfl
/-- Claim C5 (code bug in the source): the `Dtc.status` getter is supposed to
return the packed status byte, and indeed accumulates it into its local
variable (0x55 for the flags written by `statusSet 0x55`), but the body has no
return statement, so the property evaluates to `None` instead of the byte. -/
theorem C5_status_getter_returns_none :
    Dtc.statusGet (Dtc.statusSet 0x55) = none ∧
    Dtc.statusGet (Dtc.statusSet 0x55) ≠ some 0x55 ∧
    Dtc.statusLocalByte (Dtc.statusSet 0x55) = 0x55 := by
  refine ⟨rfl, ?_, by decide⟩
  intro h
  exact Option.noConfusion h

/-- Claim C6, counterexample: with the registry mapping request id 0x22 to
response id 0x62, the payload 7F 22 31 of the claim starts with 0x7F, which is
not a registered response id, so `from_payload` yields an invalid response
whose code is absent rather than a negative response with code 0x31. -/
theorem C6_scenario_counterexample :
    (Response.from_payload regRD [0x7F, 0x22, 0x31]).valid = false ∧
    (Response.from_payload regRD [0x7F, 0x22, 0x31]).code = none ∧
    (Response.from_payload regRD [0x7F, 0x22, 0x31]).code ≠ some 0x31 := by
  refine ⟨rfl, rfl, ?_⟩
  intro h
  exact Option.noConfusion h

/-- Claim C6 as amended: the code frames negative responses as
response-id, 0x7F, code, so the payload 62 7F 31 in the same registry parses
to a valid negative response with positive false and code 0x31. -/
theorem C6_negative_scenario :
    (Response.from_payload regRD [0x62, 0x7F, 0x31]).positive = false ∧
    (Response.from_payload regRD [0x62, 0x7F, 0x31]).code = some 0x31 ∧
    (Response.from_payload regRD [0x62, 0x7F, 0x31]).valid = true := by
  refine ⟨rfl, rfl, rfl⟩

/-- Claim C7: `is_negative` returns false for an absent code and for the
PositiveResponse sentinel, false for every byte value matching no registered
constant, and true for every registered constant other than the sentinel. -/
theorem C7_is_negative_classification :
    Response.Code.is_negative none = false ∧
    Response.Code.is_negative (some Response.Code.PositiveResponse) = false ∧
    (∀ v, v < 256 → Response.Code.members.any (fun m => m.2 == v) = false →
      Response.Code.is_negative (some v) = false) ∧
    (∀ m ∈ Response.Code.members, m.2 ≠ Response.Code.PositiveResponse →
      Response.Code.is_negative (some m.2) = true) := by
  refine ⟨rfl, by decide, ?_, by decide⟩
  intro v hv h
  simp [Response.Code.is_negative, Response.Code.PositiveResponse, h]

/-- Claim C7, witness: 0x20 matches no constant and is classified
non-negative; the registered constant RequestOutOfRange 0x31 is negative. -/
theorem C7_is_negative_classification_witness :
    Response.Code.is_negative (some 0x20) = false ∧
    Response.Code.is_negative (some 0x31) = true :=
  ⟨C7_is_negative_classification.2.2.1 0x20 (by decide) (by decide),
   C7_is_negative_classification.2.2.2 ("RequestOutOfRange", 0x31) (by decide) (by decide)⟩

/-- Claim C8, counterexample: for an argument of any other shape,
`from_config` does not fail with a configuration error; it falls off the end
of the function and returns Python None as a normal result. -/
theorem C8_from_config_counterexample :
    DidCodec.from_config DidConfig.other = Except.ok none ∧
    (DidCodec.from_config DidConfig.other).isOk = true := ⟨rfl, rfl⟩

/-- Claim C8 as amended: an instance is returned unchanged, a codec subtype is
instantiated with no arguments, a string is wrapped as the pack format of a
fresh codec, and any other shape yields a normal return of None instead of a
configuration error. -/
theorem C8_from_config_shapes (c : DidCodec) (instantiate : Unit → DidCodec) (s : String) :
    DidCodec.from_config (DidConfig.inst c) = Except.ok (some c) ∧
    DidCodec.from_config (DidConfig.subcls instantiate) = Except.ok (some (instantiate ())) ∧
    DidCodec.from_config (DidConfig.strFmt s) = Except.ok (some { packstr := some s }) ∧
    DidCodec.from_config DidConfig.other = Except.ok none :=
  ⟨rfl, rfl, rfl, rfl⟩

/-- Claim C9 (code bug in the source): `updateStatus` can never perform any
partial update; its declared parameter list lacks both `self` and the
`testNotCompletedThisOperationCycle` field, the body references both names,
and so every call raises a NameError instead of returning an updated Dtc. -/
theorem C9_updateStatus_always_raises (a b c d e f g : Option Bool) :
    ∃ msg, Dtc.updateStatus a b c d e f g = Except.error msg := by
  cases a <;> cases b <;> cases c <;> cases d <;> cases e <;> cases f <;> exact ⟨_, rfl⟩

/-- Claim C10: for a resolvable service, a nonzero code matching no registered
constant is classified positive by the constructor, and the object is valid. -/
theorem C10_unregistered_code_positive (svc : Service) (c : Nat)
    (h1 : 1 ≤ c) (h2 : c ≤ 0xFF)
    (hunreg : Response.Code.members.any (fun m => m.2 == c) = false) :
    ∃ r, Response.init (some svc) (some c) none = Except.ok r ∧
      r.positive = true ∧ r.valid = true := by
  have hc0 : (c == Response.Code.PositiveResponse) = false := by
    simp [Response.Code.PositiveResponse]
    omega
  have hneg : Response.Code.is_negative (some c) = false := by
    simp [Response.Code.is_negative, hc0, hunreg]
  refine ⟨{ service := some svc
            positive := true
            code := some c
            code_name := Response.Code.get_name (some c)
            data := none
            valid := true
            invalid_reason := "" }, ?_, rfl, rfl⟩
  simp only [Response.init, Option.isSome_none, Bool.false_and, Bool.false_eq_true, if_false,
    Option.isSome_some, if_true, hneg]
  rw [if_neg (by omega : ¬ (0xFF : Nat) < c)]
  simp [hneg]



/-- Claim C10, witness: the unregistered code 0x20 with the concrete service
yields a positive, valid response object. -/
theorem C10_unregistered_code_positive_witness :
    ∃ r, Response.init (some svcRD) (some 0x20) none = Except.ok r ∧
      r.positive = true ∧ r.valid = true :=
  C10_unregistered_code_positive svcRD 0x20 (by decide) (by decide) (by decide)

end Udsoncan
